import Mathlib

/-!
Shallow embedding of plugins/modules/grafana_contact_point.py.

Python dicts that the module builds with a fixed key set are embedded as
Lean structures whose optional keys are Option fields (none = key absent).
HTTP traffic is embedded by passing the responses the remote service would
give as explicit arguments (a Transport record of status codes and decoded
bodies) and by returning the list of requests a function issues, in order.
Exceptions become an Except error channel.
-/

/-- Python truthiness of an optional bool (module params leave unset
bool options as None; only True is truthy). -/
def pyTruthy : Option Bool → Bool
  | some true => true
  | _ => false

/-- Python truthiness of an optional string (None and the empty string
are falsy). -/
def pyTruthyStr : Option String → Bool
  | none => false
  | some s => s != ""

/-- The settings dict of a contact-point payload. uploadImage is always
written by the base shape; addresses and singleEmail are written only by
the email extension, so they are optional (none = key absent). -/
structure CPSettings where
  uploadImage : Bool
  addresses : Option String := none
  singleEmail : Option Bool := none
deriving DecidableEq

/-- The wire payload built by grafana_contact_point_payload, also used as
the shape of a remote contact-point entry (the API returns the same
fields). -/
structure ContactPointPayload where
  uid : String
  name : String
  type : String
  isDefault : Bool
  disableResolveMessage : Bool
  settings : CPSettings
deriving DecidableEq

/-- The module parameters consumed by the interface (after argument
parsing, which is out of core). Keys of type str that may be unset are
Option String. -/
structure CPData where
  url : String
  uid : String
  name : String
  type : String
  is_default : Bool
  include_image : Bool
  disable_resolve_message : Bool
  email_addresses : List String
  email_single : Option Bool
  state : String
  org_id : Int
  org_name : Option String
  grafana_api_key : Option String
deriving DecidableEq

/-- Embedding of grafana_contact_point_payload_email (lines 81-84):
joins the address list with a semicolon into settings.addresses and, when
email_single is truthy, writes settings.singleEmail with that value. -/
def grafana_contact_point_payload_email (data : CPData) (payload : ContactPointPayload) :
    ContactPointPayload :=
  let payload :=
    { payload with settings :=
        { payload.settings with addresses := some (String.intercalate ";" data.email_addresses) } }
  if pyTruthy data.email_single then
    { payload with settings := { payload.settings with singleEmail := data.email_single } }
  else
    payload

/-- Embedding of grafana_contact_point_payload (lines 87-100): the base
shape copies uid, name, type, is_default and disable_resolve_message and
nests include_image under settings as uploadImage; the email extension is
applied when type is email. -/
def grafana_contact_point_payload (data : CPData) : ContactPointPayload :=
  let payload : ContactPointPayload :=
    { uid := data.uid
      name := data.name
      type := data.type
      isDefault := data.is_default
      disableResolveMessage := data.disable_resolve_message
      settings := { uploadImage := data.include_image } }
  if data.type = "email" then
    grafana_contact_point_payload_email data payload
  else
    payload

/-- The errors the module can raise. grafanaAPIException embeds the
GrafanaAPIException class with its formatted message; stopIteration
embeds the builtin StopIteration escaping from next();
typeError embeds the builtin TypeError raised on a bad call. -/
inductive ApiError where
  | grafanaAPIException (msg : String) : ApiError
  | stopIteration : ApiError
  | typeError (msg : String) : ApiError
deriving DecidableEq

/-- One entry of the GET /api/user/orgs listing. -/
structure Org where
  orgId : Int
  name : String
deriving DecidableEq

/-- Embedding of grafana_organization_by_name (lines 125-139), given the
decoded organizations listing. The source computes
next(org for org in organizations if org[\x22name\x22] == org_name) with no
default, so when no entry matches, the generator raises StopIteration.
When a match exists it is a nonempty dict, hence truthy, and its orgId is
returned; the raise GrafanaAPIException statement at line 137 is
unreachable. -/
def grafana_organization_by_name (org_name : String) (organizations : List Org) :
    Except ApiError Int :=
  match organizations.find? (fun org => org.name == org_name) with
  | none => .error ApiError.stopIteration
  | some orga => .ok orga.orgId

/-- HTTP methods used by the module. -/
inductive HttpMethod where
  | GET
  | POST
  | PUT
  | DELETE
deriving DecidableEq

/-- A request the module issues through fetch_url: method, full URL, and
the JSON body when one is sent. -/
structure HttpRequest where
  method : HttpMethod
  path : String
  body : Option ContactPointPayload := none
deriving DecidableEq

/-- The responses the remote service gives to each endpoint the module may
call during one reconciliation pass: status codes and decoded bodies. -/
structure Transport where
  listStatus : Nat
  listBody : List ContactPointPayload
  createStatus : Nat
  createBody : ContactPointPayload
  updateStatus : Nat
  updateBody : ContactPointPayload
  deleteStatus : Nat
deriving DecidableEq

/-- The result dict a reconciliation returns on success. Keys other than
changed are present only on some paths, so they are Option fields with
default none (none = key absent from the dict). diff holds the pair
(before, after). -/
structure CPResult where
  changed : Bool
  state : Option String := none
  contact_point : Option ContactPointPayload := none
  diff : Option (ContactPointPayload × ContactPointPayload) := none
deriving DecidableEq

/-- Embedding of grafana_create_contact_point (lines 186-203): POST the
payload to the collection endpoint; 202 yields changed=true with the
decoded response as contact_point; any other status raises. -/
def grafana_create_contact_point (data : CPData) (payload : ContactPointPayload)
    (t : Transport) : List HttpRequest × Except ApiError CPResult :=
  let req : HttpRequest :=
    { method := .POST, path := data.url ++ "/api/v1/provisioning/contact-points",
      body := some payload }
  if t.createStatus = 202 then
    ([req], .ok { changed := true, state := some data.state,
                  contact_point := some t.createBody })
  else
    ([req], .error (.grafanaAPIException
      ("Unable to create contact point: status " ++ toString t.createStatus)))

/-- Embedding of grafana_update_contact_point (lines 205-228): PUT the
payload to the item endpoint; on 202 compare the pre-update snapshot with
the decoded response: equal yields changed=false, otherwise changed=true
with diff (before, payload) and the response as contact_point; any other
status raises. -/
def grafana_update_contact_point (data : CPData) (payload : ContactPointPayload)
    (before : ContactPointPayload) (t : Transport) :
    List HttpRequest × Except ApiError CPResult :=
  let req : HttpRequest :=
    { method := .PUT,
      path := data.url ++ "/api/v1/provisioning/contact-points/" ++ data.uid,
      body := some payload }
  if t.updateStatus = 202 then
    if before = t.updateBody then
      ([req], .ok { changed := false })
    else
      ([req], .ok { changed := true, diff := some (before, payload),
                    contact_point := some t.updateBody })
  else
    ([req], .error (.grafanaAPIException
      ("Unable to update contact point " ++ data.uid ++ " : status "
        ++ toString t.updateStatus)))

/-- Embedding of grafana_delete_contact_point (lines 230-245): DELETE the
item endpoint; 202 yields changed=true with state absent, 404 yields
changed=false, any other status raises. -/
def grafana_delete_contact_point (data : CPData) (t : Transport) :
    List HttpRequest × Except ApiError CPResult :=
  let req : HttpRequest :=
    { method := .DELETE,
      path := data.url ++ "/api/v1/provisioning/contact-points/" ++ data.uid }
  if t.deleteStatus = 202 then
    ([req], .ok { changed := true, state := some "absent" })
  else if t.deleteStatus = 404 then
    ([req], .ok { changed := false })
  else
    ([req], .error (.grafanaAPIException
      ("Unable to delete contact point " ++ data.uid ++ " : status "
        ++ toString t.deleteStatus)))

/-- Embedding of grafana_handle_contact_point (lines 172-184): builds the
payload, then branches on the state parameter and the truthiness of the
matched entry (a matched dict is nonempty, so truthiness is isSome). -/
def grafana_handle_contact_point (data : CPData) (before : Option ContactPointPayload)
    (t : Transport) : List HttpRequest × Except ApiError CPResult :=
  let payload := grafana_contact_point_payload data
  if data.state = "present" then
    match before with
    | some b => grafana_update_contact_point data payload b t
    | none => grafana_create_contact_point data payload t
  else
    match before with
    | some _ => grafana_delete_contact_point data t
    | none => ([], .ok { changed := false })

/-- Embedding of grafana_switch_organisation (lines 141-151): POST to the
org-switch endpoint; any status other than 200 raises. -/
def grafana_switch_organisation (data : CPData) (org_id : Int) (switchStatus : Nat) :
    List HttpRequest × Except ApiError Unit :=
  let req : HttpRequest :=
    { method := .POST, path := data.url ++ "/api/user/using/" ++ toString org_id }
  if switchStatus = 200 then
    ([req], .ok ())
  else
    ([req], .error (.grafanaAPIException
      ("Unable to switch to organization " ++ toString org_id ++ " : status "
        ++ toString switchStatus)))

/-- The positional parameters (after self) declared by the def of
grafana_organization_by_name at line 125 of the source. -/
def grafana_organization_by_name_params : List String := ["data", "org_name"]

/-- Python positional-argument binding: pairing the declared parameters
with the supplied arguments raises TypeError when the counts disagree. -/
def bindPositional (ps : List String) (args : List String) :
    Except String (List (String × String)) :=
  if args.length < ps.length then
    .error ("missing " ++ toString (ps.length - args.length)
      ++ " required positional argument")
  else if ps.length < args.length then
    .error "too many positional arguments"
  else
    .ok (ps.zip args)

/-- Embedding of GrafanaContactPointInterface.__init__ (lines 104-123),
its outcome being the resolved org_id. With an API key, only the bearer
header is set, org_id stays None and no request is issued. Otherwise,
with a truthy org_name, line 118 calls grafana_organization_by_name with
the single positional argument module.params[\x22org_name\x22], which Python
binds against the two declared parameters before entering the body; with
a falsy org_name, org_id is taken from the parameters and the
organisation switch is performed. -/
def interface_init (params : CPData) (orgs : List Org) (switchStatus : Nat) :
    List HttpRequest × Except ApiError (Option Int) :=
  if pyTruthyStr params.grafana_api_key then
    ([], .ok none)
  else
    if pyTruthyStr params.org_name then
      match bindPositional grafana_organization_by_name_params
          [params.org_name.getD ""] with
      | .error m => ([], .error (.typeError m))
      | .ok _env =>
          let orgsReq : HttpRequest :=
            { method := .GET, path := params.url ++ "/api/user/orgs" }
          match grafana_organization_by_name (params.org_name.getD "") orgs with
          | .error e => ([orgsReq], .error e)
          | .ok oid =>
              let step := grafana_switch_organisation params oid switchStatus
              (orgsReq :: step.1, step.2.map (fun _ => some oid))
    else
      let step := grafana_switch_organisation params params.org_id switchStatus
      (step.1, step.2.map (fun _ => some params.org_id))

/-- Embedding of grafana_check_contact_point_match (lines 153-170): GET
the contact-point listing; on 200 find the entry with the desired uid
(next with default None becomes List.find?) and hand over; otherwise
raise. -/
def grafana_check_contact_point_match (data : CPData) (t : Transport) :
    List HttpRequest × Except ApiError CPResult :=
  let req : HttpRequest :=
    { method := .GET, path := data.url ++ "/api/v1/provisioning/contact-points" }
  if t.listStatus = 200 then
    let before := t.listBody.find? (fun cp => cp.uid == data.uid)
    let step := grafana_handle_contact_point data before t
    (req :: step.1, step.2)
  else
    ([req], .error (.grafanaAPIException
      ("Unable to get contact point " ++ data.uid ++ " : status "
        ++ toString t.listStatus)))

/-- The remote store: the list of contact points the service holds. -/
abbrev Store := List ContactPointPayload

/-- Model of a faithful remote service over a store, as assumed by the
idempotency guarantee of the spec: listing returns the store with 200;
create and update accept with 202, record the sent payload verbatim and
echo it back; delete answers 202 when an entry with the uid exists and
404 otherwise. -/
def storeTransport (d : CPData) (s : Store) : Transport :=
  let payload := grafana_contact_point_payload d
  { listStatus := 200
    listBody := s
    createStatus := 202
    createBody := payload
    updateStatus := 202
    updateBody := payload
    deleteStatus :=
      if (s.find? (fun cp => cp.uid == d.uid)).isSome then 202 else 404 }

/-- The store after the faithful remote service has processed the single
mutating request of one reconciliation pass: update replaces the entries
bearing the uid, create appends the payload, delete (and the no-request
path) removes any entry bearing the uid. -/
def storeAfter (d : CPData) (s : Store) : Store :=
  let payload := grafana_contact_point_payload d
  if d.state = "present" then
    if (s.find? (fun cp => cp.uid == d.uid)).isSome then
      s.map (fun cp => if cp.uid == d.uid then payload else cp)
    else
      s ++ [payload]
  else
    s.filter (fun cp => !(cp.uid == d.uid))

/-- One reconciliation pass run against the faithful remote service:
the result reported and the store the service holds afterwards. -/
def runReconcile (d : CPData) (s : Store) : Except ApiError CPResult × Store :=
  ((grafana_check_contact_point_match d (storeTransport d s)).2, storeAfter d s)

/-! Concrete inputs used by witnesses and counterexamples. -/

/-- A concrete desired state, taken from the module documentation example. -/
def exData : CPData :=
  { url := "http://grafana.example"
    uid := "email"
    name := "E-Mail"
    type := "email"
    is_default := false
    include_image := false
    disable_resolve_message := false
    email_addresses := ["example@example.com"]
    email_single := none
    state := "present"
    org_id := 1
    org_name := none
    grafana_api_key := some "key" }

/-- The payload built from exData. -/
def exPayload : ContactPointPayload := grafana_contact_point_payload exData

/-- A remote entry with the same uid as exData but a different name. -/
def exRemote : ContactPointPayload := { exPayload with name := "Old Name" }

/-- A transport where every call succeeds and the listing is empty. -/
def exTransport : Transport :=
  { listStatus := 200
    listBody := []
    createStatus := 202
    createBody := exPayload
    updateStatus := 202
    updateBody := exPayload
    deleteStatus := 202 }

/-- The desired state of the payload round-trip example of the spec. -/
def exEmailData : CPData :=
  { exData with email_addresses := ["a@x.com", "b@x.com"], email_single := some true }

/-! Helper lemmas. -/

/-- The payload builder preserves the uid through the email extension. -/
lemma payload_uid (d : CPData) : (grafana_contact_point_payload d).uid = d.uid := by
  simp [grafana_contact_point_payload, grafana_contact_point_payload_email,
    apply_ite ContactPointPayload.uid]

/-- On a 200 listing the match step reduces to the handler applied to the
entry found by uid. -/
lemma check_match_200 (data : CPData) (t : Transport) (h200 : t.listStatus = 200) :
    (grafana_check_contact_point_match data t).2 =
      (grafana_handle_contact_point data
        (t.listBody.find? (fun cp => cp.uid == data.uid)) t).2 := by
  simp [grafana_check_contact_point_match, h200]

/-- Replacing every element satisfying p by a fixed a satisfying p makes
find? return a, provided some element satisfied p. -/
lemma find?_map_replace {α : Type} (p : α → Bool) (a : α) (ha : p a = true) :
    ∀ l : List α, (l.find? p).isSome = true →
      (l.map (fun x => if p x then a else x)).find? p = some a := by
  intro l
  induction l with
  | nil => intro h; simp [List.find?] at h
  | cons x xs ih =>
      intro h
      by_cases hx : p x = true
      · simp [hx, ha, List.find?_cons_of_pos]
      · have hx' : p x = false := by simpa using hx
        simp only [List.find?_cons, hx'] at h
        simpa [hx'] using ih h

/-- find? over an append whose left part has no hit. -/
lemma find?_append_of_none {α : Type} (p : α → Bool) (l₂ : List α) :
    ∀ l : List α, l.find? p = none → (l ++ l₂).find? p = l₂.find? p := by
  intro l
  induction l with
  | nil => intro _; rfl
  | cons x xs ih =>
      intro h
      by_cases hx : p x = true
      · simp [List.find?_cons, hx] at h
      · have hx' : p x = false := by simpa using hx
        simp only [List.find?_cons, hx'] at h
        simpa [List.cons_append, List.find?_cons, hx'] using ih h

/-- find? never hits in a list filtered to the complement of p. -/
lemma find?_filter_neg {α : Type} (p : α → Bool) :
    ∀ l : List α, (l.filter (fun x => !(p x))).find? p = none := by
  intro l
  induction l with
  | nil => rfl
  | cons x xs ih =>
      by_cases hx : p x = true
      · simp [List.filter_cons, hx, ih]
      · have hx' : p x = false := by simpa using hx
        simp [List.filter_cons, hx', List.find?_cons, ih]

/-- Create always issues exactly one POST to the collection endpoint. -/
lemma create_requests (data : CPData) (payload : ContactPointPayload) (t : Transport) :
    (grafana_create_contact_point data payload t).1 =
      [{ method := .POST, path := data.url ++ "/api/v1/provisioning/contact-points",
         body := some payload }] := by
  unfold grafana_create_contact_point
  split <;> rfl

/-- Update always issues exactly one PUT to the item endpoint. -/
lemma update_requests (data : CPData) (payload before : ContactPointPayload)
    (t : Transport) :
    (grafana_update_contact_point data payload before t).1 =
      [{ method := .PUT,
         path := data.url ++ "/api/v1/provisioning/contact-points/" ++ data.uid,
         body := some payload }] := by
  unfold grafana_update_contact_point
  split
  · split <;> rfl
  · rfl

/-- Delete always issues exactly one DELETE to the item endpoint. -/
lemma delete_requests (data : CPData) (t : Transport) :
    (grafana_delete_contact_point data t).1 =
      [{ method := .DELETE,
         path := data.url ++ "/api/v1/provisioning/contact-points/" ++ data.uid }] := by
  unfold grafana_delete_contact_point
  split
  · rfl
  · split <;> rfl

/-! Claim theorems. -/

/-- C1: the reconciler decision is a pure function of (targetPresence,
before): present with no match performs Create (a single POST to the
collection endpoint), present with a match performs Update (a single PUT
to the item endpoint), absent with a match performs Delete (a single
DELETE to the item endpoint), and absent with no match issues no request
and returns changed=false. -/
theorem handle_contact_point_decision_table (data : CPData) (t : Transport)
    (b : ContactPointPayload) :
    (data.state = "present" →
      grafana_handle_contact_point data none t =
        grafana_create_contact_point data (grafana_contact_point_payload data) t ∧
      (grafana_handle_contact_point data none t).1.map HttpRequest.method = [.POST] ∧
      grafana_handle_contact_point data (some b) t =
        grafana_update_contact_point data (grafana_contact_point_payload data) b t ∧
      (grafana_handle_contact_point data (some b) t).1.map HttpRequest.method = [.PUT]) ∧
    (data.state = "absent" →
      grafana_handle_contact_point data (some b) t = grafana_delete_contact_point data t ∧
      (grafana_handle_contact_point data (some b) t).1.map HttpRequest.method = [.DELETE] ∧
      grafana_handle_contact_point data none t = ([], .ok { changed := false })) := by
  constructor
  · intro h
    refine ⟨by simp [grafana_handle_contact_point, h], ?_, by simp [grafana_handle_contact_point, h], ?_⟩
    · simp [grafana_handle_contact_point, h, create_requests]
    · simp [grafana_handle_contact_point, h, update_requests]
  · intro h
    refine ⟨by simp [grafana_handle_contact_point, h], ?_, by simp [grafana_handle_contact_point, h]⟩
    simp [grafana_handle_contact_point, h, delete_requests]

/-- C1 witness: the decision table at a concrete desired state, in its
present and absent variants. -/
theorem handle_contact_point_decision_table_witness :
    (grafana_handle_contact_point exData none exTransport =
      grafana_create_contact_point exData (grafana_contact_point_payload exData)
        exTransport) ∧
    (grafana_handle_contact_point { exData with state := "absent" } none exTransport =
      ([], .ok { changed := false })) :=
  ⟨((handle_contact_point_decision_table exData exTransport exPayload).1 rfl).1,
   (((handle_contact_point_decision_table { exData with state := "absent" }
      exTransport exPayload).2 rfl).2.2)⟩

/-- C2: on an organizations listing with no exactly matching name, the
lookup raises StopIteration, not the GrafanaAPIException naming the
organization (the raise at line 137 is unreachable): every outcome is
either StopIteration or the orgId of a listed exact match. -/
theorem organization_by_name_stopiteration :
    grafana_organization_by_name "Other Org" [{ orgId := 1, name := "Main Org." }] =
      .error ApiError.stopIteration ∧
    ∀ (org_name : String) (orgs : List Org),
      grafana_organization_by_name org_name orgs = .error ApiError.stopIteration ∨
      ∃ orga ∈ orgs, orga.name = org_name ∧
        grafana_organization_by_name org_name orgs = .ok orga.orgId := by
  refine ⟨rfl, ?_⟩
  intro org_name orgs
  unfold grafana_organization_by_name
  cases hf : orgs.find? (fun org => org.name == org_name) with
  | none => exact .inl rfl
  | some orga =>
      refine .inr ⟨orga, List.mem_of_find?_eq_some hf, ?_, rfl⟩
      simpa using List.find?_some hf

/-- C4: Update issues a single PUT of the built payload to the item
endpoint; on 202 the result is changed=false exactly when the pre-update
snapshot equals the decoded response, and otherwise changed=true with the
diff holding the snapshot and the sent payload; any other status raises. -/
theorem update_contact_point_contract (data : CPData)
    (payload before : ContactPointPayload) (t : Transport) :
    (grafana_update_contact_point data payload before t).1 =
      [{ method := .PUT,
         path := data.url ++ "/api/v1/provisioning/contact-points/" ++ data.uid,
         body := some payload }] ∧
    (t.updateStatus = 202 → before = t.updateBody →
      (grafana_update_contact_point data payload before t).2 =
        .ok { changed := false }) ∧
    (t.updateStatus = 202 → before ≠ t.updateBody →
      (grafana_update_contact_point data payload before t).2 =
        .ok { changed := true, contact_point := some t.updateBody,
              diff := some (before, payload) }) ∧
    (t.updateStatus ≠ 202 →
      (grafana_update_contact_point data payload before t).2 =
        .error (.grafanaAPIException ("Unable to update contact point " ++ data.uid
          ++ " : status " ++ toString t.updateStatus))) := by
  refine ⟨update_requests data payload before t, fun h1 h2 => ?_, fun h1 h2 => ?_,
    fun h1 => ?_⟩
  · simp [grafana_update_contact_point, h1, h2]
  · simp [grafana_update_contact_point, h1, h2]
  · simp [grafana_update_contact_point, h1]

/-- C4 witness: the update contract at concrete inputs covering the
equal-snapshot, different-snapshot and bad-status paths. -/
theorem update_contact_point_contract_witness :
    ((grafana_update_contact_point exData exPayload exPayload exTransport).2 =
      .ok { changed := false }) ∧
    ((grafana_update_contact_point exData exPayload exRemote exTransport).2 =
      .ok { changed := true, contact_point := some exPayload,
            diff := some (exRemote, exPayload) }) ∧
    ((grafana_update_contact_point exData exPayload exPayload
        { exTransport with updateStatus := 500 }).2 =
      .error (.grafanaAPIException
        "Unable to update contact point email : status 500")) :=
  ⟨(update_contact_point_contract exData exPayload exPayload exTransport).2.1
      rfl rfl,
   (update_contact_point_contract exData exPayload exRemote exTransport).2.2.1
      rfl (by decide),
   (update_contact_point_contract exData exPayload exPayload
      { exTransport with updateStatus := 500 }).2.2.2 (by decide)⟩

/-- C5: for type email the payload copies uid, name, type, is_default and
disable_resolve_message, nests include_image as settings.uploadImage,
joins the address list with a semicolon into settings.addresses, and
writes settings.singleEmail exactly when email_single is truthy (unset or
false leaves the key absent). -/
theorem email_payload_contract (data : CPData) (h : data.type = "email") :
    (grafana_contact_point_payload data).uid = data.uid ∧
    (grafana_contact_point_payload data).name = data.name ∧
    (grafana_contact_point_payload data).type = data.type ∧
    (grafana_contact_point_payload data).isDefault = data.is_default ∧
    (grafana_contact_point_payload data).disableResolveMessage =
      data.disable_resolve_message ∧
    (grafana_contact_point_payload data).settings.uploadImage = data.include_image ∧
    (grafana_contact_point_payload data).settings.addresses =
      some (String.intercalate ";" data.email_addresses) ∧
    (grafana_contact_point_payload data).settings.singleEmail =
      (if data.email_single = some true then some true else none) := by
  unfold grafana_contact_point_payload grafana_contact_point_payload_email
  rw [if_pos h]
  cases he : data.email_single with
  | none => simp [pyTruthy]
  | some b => cases b <;> simp [pyTruthy]

/-- C5 witness: the payload round-trip example of the spec. -/
theorem email_payload_contract_witness :
    (grafana_contact_point_payload exEmailData).settings.addresses =
      some "a@x.com;b@x.com" ∧
    (grafana_contact_point_payload exEmailData).settings.singleEmail = some true ∧
    (grafana_contact_point_payload
      { exEmailData with email_single := none }).settings.singleEmail = none :=
  ⟨(email_payload_contract exEmailData rfl).2.2.2.2.2.2.1,
   (email_payload_contract exEmailData rfl).2.2.2.2.2.2.2,
   (email_payload_contract { exEmailData with email_single := none }
      rfl).2.2.2.2.2.2.2⟩

/-- C6: Delete reports changed=true with state absent on 202, reports
changed=false on 404 (already gone is success), and raises on every other
status, so no other status ever reports a change. -/
theorem delete_contact_point_contract (data : CPData) (t : Transport) :
    (t.deleteStatus = 202 →
      (grafana_delete_contact_point data t).2 =
        .ok { changed := true, state := some "absent" }) ∧
    (t.deleteStatus = 404 →
      (grafana_delete_contact_point data t).2 = .ok { changed := false }) ∧
    (t.deleteStatus ≠ 202 → t.deleteStatus ≠ 404 →
      (grafana_delete_contact_point data t).2 =
        .error (.grafanaAPIException ("Unable to delete contact point " ++ data.uid
          ++ " : status " ++ toString t.deleteStatus))) := by
  refine ⟨fun h => ?_, fun h => ?_, fun h1 h2 => ?_⟩
  · simp [grafana_delete_contact_point, h]
  · simp [grafana_delete_contact_point, h]
  · simp [grafana_delete_contact_point, h1, h2]

/-- C6 witness: the delete contract at concrete inputs covering the 202,
404 and other-status paths. -/
theorem delete_contact_point_contract_witness :
    ((grafana_delete_contact_point exData exTransport).2 =
      .ok { changed := true, state := some "absent" }) ∧
    ((grafana_delete_contact_point exData
        { exTransport with deleteStatus := 404 }).2 = .ok { changed := false }) ∧
    ((grafana_delete_contact_point exData
        { exTransport with deleteStatus := 500 }).2 =
      .error (.grafanaAPIException
        "Unable to delete contact point email : status 500")) :=
  ⟨(delete_contact_point_contract exData exTransport).1 rfl,
   (delete_contact_point_contract exData
      { exTransport with deleteStatus := 404 }).2.1 rfl,
   (delete_contact_point_contract exData
      { exTransport with deleteStatus := 500 }).2.2 (by decide) (by decide)⟩

/-- C3: with basic authentication and a truthy org_name, the constructor
call at line 118 passes a single positional argument to
grafana_organization_by_name, whose def at line 125 declares two
parameters after self, so positional binding raises TypeError before any
HTTP request is issued and the org-name resolution path can never
succeed. -/
theorem init_org_name_type_error (params : CPData) (orgs : List Org)
    (switchStatus : Nat) (hk : params.grafana_api_key = none)
    (hn : pyTruthyStr params.org_name = true) :
    interface_init params orgs switchStatus =
      ([], .error (.typeError "missing 1 required positional argument")) := by
  have hk' : pyTruthyStr params.grafana_api_key = false := by rw [hk]; rfl
  simp [interface_init, hk', hn, bindPositional, grafana_organization_by_name_params]
  rfl

/-- C3 witness: the constructor outcome at a concrete parameter set using
basic authentication with an org name. -/
theorem init_org_name_type_error_witness :
    interface_init
      { exData with grafana_api_key := none, org_name := some "Main Org." }
      [] 200 =
      ([], .error (.typeError "missing 1 required positional argument")) :=
  init_org_name_type_error _ [] 200 rfl rfl

/-- C7: a non-200 status on the contact-point listing raises the
exception carrying the status before anything else happens (the only
request issued is the GET), and a non-202 status on create raises the
exception carrying the status, so create never returns a result. -/
theorem unexpected_status_fatal (data : CPData) (payload : ContactPointPayload)
    (t : Transport) :
    (t.listStatus ≠ 200 →
      (grafana_check_contact_point_match data t).2 =
        .error (.grafanaAPIException ("Unable to get contact point " ++ data.uid
          ++ " : status " ++ toString t.listStatus)) ∧
      (grafana_check_contact_point_match data t).1.map HttpRequest.method = [.GET]) ∧
    (t.createStatus ≠ 202 →
      (grafana_create_contact_point data payload t).2 =
        .error (.grafanaAPIException ("Unable to create contact point: status "
          ++ toString t.createStatus))) := by
  refine ⟨fun h => ⟨?_, ?_⟩, fun h => ?_⟩
  · simp [grafana_check_contact_point_match, h]
  · simp [grafana_check_contact_point_match, h]
  · simp [grafana_create_contact_point, h]

/-- C7 witness: the fatal-status contract at concrete transports giving a
500 listing and a 500 create. -/
theorem unexpected_status_fatal_witness :
    ((grafana_check_contact_point_match exData
        { exTransport with listStatus := 500 }).2 =
      .error (.grafanaAPIException
        "Unable to get contact point email : status 500")) ∧
    ((grafana_create_contact_point exData exPayload
        { exTransport with createStatus := 500 }).2 =
      .error (.grafanaAPIException
        "Unable to create contact point: status 500")) :=
  ⟨((unexpected_status_fatal exData exPayload
      { exTransport with listStatus := 500 }).1 (by decide)).1,
   (unexpected_status_fatal exData exPayload
      { exTransport with createStatus := 500 }).2 (by decide)⟩

/-- C8 counterexample: a successful create run reports changed=true but
its result carries no diff field. -/
theorem changed_true_without_diff_counterexample :
    (grafana_check_contact_point_match exData exTransport).2 =
      .ok { changed := true, state := some "present",
            contact_point := some exPayload } ∧
    ({ changed := true, state := some "present",
       contact_point := some exPayload : CPResult }).diff = none :=
  ⟨rfl, rfl⟩

/-- C8 amended: only the Update action attaches a before/after diff to a
changed=true result; Create and Delete results never carry a diff. -/
theorem diff_only_on_update (data : CPData) (payload before : ContactPointPayload)
    (t : Transport) (r : CPResult) :
    ((grafana_update_contact_point data payload before t).2 = .ok r →
      r.changed = true → r.diff = some (before, payload)) ∧
    ((grafana_create_contact_point data payload t).2 = .ok r → r.diff = none) ∧
    ((grafana_delete_contact_point data t).2 = .ok r → r.diff = none) := by
  refine ⟨fun h hc => ?_, fun h => ?_, fun h => ?_⟩
  · unfold grafana_update_contact_point at h
    split at h
    · split at h
      · simp only [Prod.snd, Except.ok.injEq] at h
        subst h
        simp at hc
      · simp only [Prod.snd, Except.ok.injEq] at h
        subst h
        rfl
    · simp at h
  · unfold grafana_create_contact_point at h
    split at h
    · simp only [Prod.snd, Except.ok.injEq] at h
      subst h
      rfl
    · simp at h
  · unfold grafana_delete_contact_point at h
    split at h
    · simp only [Prod.snd, Except.ok.injEq] at h
      subst h
      rfl
    · split at h
      · simp only [Prod.snd, Except.ok.injEq] at h
        subst h
        rfl
      · simp at h

/-- C8 amended witness: the diff placement at concrete runs of each
action. -/
theorem diff_only_on_update_witness :
    ({ changed := true, contact_point := some exPayload,
       diff := some (exRemote, exPayload) : CPResult }).diff =
      some (exRemote, exPayload) ∧
    ({ changed := true, state := some "present",
       contact_point := some exPayload : CPResult }).diff = none ∧
    ({ changed := true, state := some "absent" : CPResult }).diff = none :=
  ⟨(diff_only_on_update exData exPayload exRemote exTransport _).1 rfl rfl,
   (diff_only_on_update exData exPayload exRemote exTransport _).2.1 rfl,
   (diff_only_on_update exData exPayload exRemote exTransport _).2.2 rfl⟩

/-- C10: every reconciliation result reporting changed=false is the bare
dict with only the changed key: no state, no contact_point, no diff. -/
theorem changed_false_result_is_bare (data : CPData) (t : Transport) (r : CPResult)
    (h : (grafana_check_contact_point_match data t).2 = .ok r)
    (hc : r.changed = false) : r = { changed := false } := by
  by_cases hl : t.listStatus = 200
  · rw [check_match_200 data t hl] at h
    unfold grafana_handle_contact_point grafana_create_contact_point
      grafana_update_contact_point grafana_delete_contact_point at h
    split at h
    · split at h
      · split at h
        · split at h
          · simp only [Prod.snd, Except.ok.injEq] at h
            subst h
            rfl
          · simp only [Prod.snd, Except.ok.injEq] at h
            subst h
            simp at hc
        · simp at h
      · split at h
        · simp only [Prod.snd, Except.ok.injEq] at h
          subst h
          simp at hc
        · simp at h
    · split at h
      · split at h
        · simp only [Prod.snd, Except.ok.injEq] at h
          subst h
          simp at hc
        · split at h
          · simp only [Prod.snd, Except.ok.injEq] at h
            subst h
            rfl
          · simp at h
      · simp only [Prod.snd, Except.ok.injEq] at h
        subst h
        rfl
  · simp [grafana_check_contact_point_match, hl] at h

/-- C9: idempotence against the faithful remote service: for every
desired state and starting store, the second reconciliation pass (run on
the store the first pass produced, with the service echoing the stored
content) reports changed=false, so changed=true can occur at most on the
first pass. -/
theorem reconcile_second_run_unchanged (d : CPData) (s : Store) (r : CPResult)
    (h : (runReconcile d (runReconcile d s).2).1 = .ok r) : r.changed = false := by
  have hpa : (fun cp => cp.uid == d.uid) (grafana_contact_point_payload d) = true := by
    simp [payload_uid]
  have hs2 : (runReconcile d s).2 = storeAfter d s := rfl
  rw [hs2] at h
  have h1 : (runReconcile d (storeAfter d s)).1 =
      (grafana_check_contact_point_match d (storeTransport d (storeAfter d s))).2 := rfl
  rw [h1, check_match_200 _ _ rfl] at h
  by_cases hs : d.state = "present"
  · have hfind : (storeTransport d (storeAfter d s)).listBody.find?
        (fun cp => cp.uid == d.uid) = some (grafana_contact_point_payload d) := by
      show (storeAfter d s).find? (fun cp => cp.uid == d.uid) = _
      simp only [storeAfter]
      rw [if_pos hs]
      by_cases hm : (s.find? (fun cp => cp.uid == d.uid)).isSome = true
      · rw [if_pos hm]
        exact find?_map_replace (fun cp => cp.uid == d.uid)
          (grafana_contact_point_payload d) hpa s hm
      · rw [if_neg hm]
        have hnone : s.find? (fun cp => cp.uid == d.uid) = none := by
          cases hfe : s.find? (fun cp => cp.uid == d.uid) with
          | none => rfl
          | some w => rw [hfe] at hm; simp at hm
        rw [find?_append_of_none _ _ s hnone]
        simp [List.find?_cons, hpa]
    rw [hfind] at h
    simp [grafana_handle_contact_point, hs, grafana_update_contact_point,
      storeTransport] at h
    rw [← h]
  · have hfind : (storeTransport d (storeAfter d s)).listBody.find?
        (fun cp => cp.uid == d.uid) = none := by
      show (storeAfter d s).find? (fun cp => cp.uid == d.uid) = none
      simp only [storeAfter]
      rw [if_neg hs]
      exact find?_filter_neg _ s
    rw [hfind] at h
    simp [grafana_handle_contact_point, hs] at h
    rw [← h]

/-- C9 witness: the second pass at a concrete desired state starting from
the empty store. -/
theorem reconcile_second_run_unchanged_witness :
    ({ changed := false : CPResult }).changed = false :=
  reconcile_second_run_unchanged exData [] { changed := false } rfl

/-- C10 witness: a delete run answered 404 at a concrete input yields the
bare changed=false dict. -/
theorem changed_false_result_is_bare_witness :
    ({ changed := false, state := none, contact_point := none,
       diff := none : CPResult }) = { changed := false } :=
  changed_false_result_is_bare { exData with state := "absent" } exTransport
    { changed := false } rfl rfl
